import Mathlib

/-!
Verification of the object-store abstraction layer of influxdb_iox against its
specification.  The definitions below are a shallow embedding of the backend
adapters in src/object_store/src/aws.rs, gcp.rs and azure.rs: the S3 retry
executor, the paginated listing engine, the error classification of get, and
the list_with_delimiter implementations of the three cloud adapters.

Modelling conventions:
- Machine integers (u32 counters, u64 durations, i64 sizes) are modelled as
  Nat or Int; none of the source arithmetic can overflow within the bounds
  exercised here (attempt counters stay below 4, sleep times below 800 ms).
- An async remote request is modelled by its outcome, an Except value.  A
  request site that may be re-issued (a retry factory, a backend page fetch)
  is modelled as a function from the attempt index, or from the continuation
  token, to the outcome of that particular request.
- Lazy streams are modelled as pull-driven: one pull of a listing stream is a
  function from the engine state to the issued request plus the yielded item,
  and a consumer that drains the stream is a fuel-indexed iteration of pulls.
- The path module of the crate is not part of the excerpted source; CloudPath
  is therefore modelled as the raw key string (CloudPath.raw is the identity),
  which is all the adapters use of it.
- Timestamp parsing (chrono parse_from_rfc3339) and the current time (Utc.now)
  are external collaborators; they enter the model as parameters parseTime and
  now.  A parse failure is parseTime returning none, exactly where the source
  propagates a chrono error.
-/

deriving instance DecidableEq for Except

/-- Byte buffers, modelled as lists of byte values. -/
abbrev Bytes := List Nat

/-- The crate path type; the adapters only convert it to and from raw
strings, so it is modelled as the raw key string. -/
abbrev CloudPath := String

/-- CloudPath.raw builds a path from a raw backend key. -/
def CloudPath.raw (s : String) : CloudPath := s

/-- Crate-level object metadata: (location, last_modified, size). -/
structure ObjectMeta where
  location : CloudPath
  last_modified : Int
  size : Nat
deriving DecidableEq

/-- Crate-level result of one delimited listing. -/
structure ListResult where
  next_token : Option String
  common_prefixes : List CloudPath
  objects : List ObjectMeta
deriving DecidableEq

/-- The listing-engine state machine, defined identically in aws.rs
list_objects_v2 and azure.rs list. -/
inductive ListState where
  | Start
  | HasMore (token : String)
  | Done
deriving DecidableEq

/-- One pull of a listing stream: which page requests were issued during the
pull (by the continuation token they carried), and the yielded item together
with the state the unfold continues from; yielded = none means the stream is
exhausted. -/
structure Pull (α : Type) where
  issued : List (Option String)
  yielded : Option (α × ListState)
deriving DecidableEq

namespace rusoto

/-- The raw http response carried by RusotoError.Unknown; only the status
code is relevant to the adapter. -/
structure BufferedHttpResponse where
  status : Nat
deriving DecidableEq

/-- rusoto_core::RusotoError. -/
inductive RusotoError (E : Type) where
  | Service (err : E)
  | HttpDispatch (msg : String)
  | Credentials (msg : String)
  | Validation (msg : String)
  | ParseError (msg : String)
  | Unknown (response : BufferedHttpResponse)
  | Blocking
deriving DecidableEq

end rusoto

namespace rusoto_s3

/-- rusoto_s3::GetObjectError. -/
inductive GetObjectError where
  | NoSuchKey (msg : String)
  | InvalidObjectState (msg : String)
deriving DecidableEq

/-- rusoto_s3::PutObjectError (an error enum with no variants). -/
inductive PutObjectError where

instance : DecidableEq PutObjectError := fun a _ => nomatch a

/-- rusoto_s3::DeleteObjectError (an error enum with no variants). -/
inductive DeleteObjectError where

instance : DecidableEq DeleteObjectError := fun a _ => nomatch a

/-- rusoto_s3::ListObjectsV2Error. -/
inductive ListObjectsV2Error where
  | NoSuchBucket (msg : String)
deriving DecidableEq

/-- rusoto_s3::Object, the fields the adapter reads. -/
structure Object where
  key : Option String
  last_modified : Option String
  size : Option Int
deriving DecidableEq

/-- rusoto_s3::CommonPrefix.  The source field is named prefix, which is a
reserved word in Lean, so the model names it pfx. -/
structure CommonPrefix where
  pfx : Option String
deriving DecidableEq

/-- rusoto_s3::ListObjectsV2Output, the fields the adapter reads. -/
structure ListObjectsV2Output where
  contents : Option (List Object)
  common_prefixes : Option (List CommonPrefix)
  next_continuation_token : Option String
  is_truncated : Option Bool
deriving DecidableEq

/-- rusoto_s3::GetObjectOutput: the body is an optional byte stream whose
items can individually fail with an io error (modelled by its message). -/
structure GetObjectOutput where
  body : Option (List (Except String Bytes))
deriving DecidableEq

end rusoto_s3

namespace aws

open rusoto rusoto_s3

/-- aws.rs: the maximum number of times a request will be retried in the case
of an AWS server error. -/
def MAX_NUM_RETRIES : Nat := 3

/-- aws.rs Error enum (source causes kept where the adapter inspects or
repackages them). -/
inductive Error where
  | DataDoesNotMatchLength (expected actual : Nat)
  | NoData (bucket location : String)
  | UnableToDeleteData (source : RusotoError DeleteObjectError) (bucket location : String)
  | UnableToGetData (source : RusotoError GetObjectError) (bucket location : String)
  | UnableToGetPieceOfData (bucket location : String)
  | UnableToPutData (source : RusotoError PutObjectError) (bucket location : String)
  | UnableToListData (source : RusotoError ListObjectsV2Error) (bucket : String)
  | UnableToParseLastModified (bucket : String)
  | InvalidRegion (region : String)
  | MissingAccessKey
  | MissingSecretAccessKey
  | NotFound (location : String) (source : RusotoError GetObjectError)
deriving DecidableEq

/-- http StatusCode.is_server_error: 5xx. -/
def isServerError (status : Nat) : Bool :=
  decide (500 ≤ status) && decide (status < 600)

/-- aws.rs s3_request: the retry predicate.  The source computes
should_retry = matches Unknown(response) whose status is a server error. -/
def shouldRetry {E : Type} (e : RusotoError E) : Bool :=
  match e with
  | .Unknown response => isServerError response.status
  | _ => false

/-- Observable outcome of one s3_request execution: the returned result, the
number of requests issued (calls of future_factory), and the total time slept
between attempts in milliseconds. -/
structure RetryTrace (E R : Type) where
  result : Except (RusotoError E) R
  requests : Nat
  sleepMs : Nat
deriving DecidableEq

/-- The loop body of aws.rs s3_request.  future_factory i is the outcome of
the i-th request issued (the source builds a fresh request each time).  The
source counts failures in a mutable attempts variable and exits when
attempts > MAX_NUM_RETRIES; here retriesLeft = MAX_NUM_RETRIES - attempts, so
the exit condition attempts > MAX_NUM_RETRIES is retriesLeft = 0, and the
sleep before the next attempt is 2 ^ attempts * 50 ms with attempts already
incremented, as in the source. -/
def s3RequestFrom {E R : Type} (future_factory : Nat → Except (RusotoError E) R) :
    Nat → Nat → Nat → Nat → RetryTrace E R
  | retriesLeft, calls, attempts, sleepMs =>
    match future_factory calls with
    | .ok r => { result := .ok r, requests := calls + 1, sleepMs := sleepMs }
    | .error e =>
      match retriesLeft with
      | 0 => { result := .error e, requests := calls + 1, sleepMs := sleepMs }
      | rl + 1 =>
        if shouldRetry e then
          s3RequestFrom future_factory rl (calls + 1) (attempts + 1)
            (sleepMs + 2 ^ (attempts + 1) * 50)
        else { result := .error e, requests := calls + 1, sleepMs := sleepMs }

/-- aws.rs s3_request: retry a request up to MAX_NUM_RETRIES times on 5xx
server errors, with exponential backoff. -/
def s3Request {E R : Type} (future_factory : Nat → Except (RusotoError E) R) :
    RetryTrace E R :=
  s3RequestFrom future_factory MAX_NUM_RETRIES 0 0 0

/-- aws.rs list_objects_v2: one step of the stream::unfold.  pageResult tok
is the outcome, after the internal retries of s3_request, of the page request
carrying continuation token tok.  On success the next state is HasMore of the
token when the response carries next_continuation_token, otherwise Done; on
failure the item is the error and the state is returned unchanged, exactly as
in the source.  A Done state issues no request and yields nothing. -/
def listPull (pageResult : Option String → Except (RusotoError ListObjectsV2Error) ListObjectsV2Output)
    (state : ListState) :
    Pull (Except (RusotoError ListObjectsV2Error) ListObjectsV2Output) :=
  match state with
  | .Done => { issued := [], yielded := none }
  | _ =>
    let continuation_token : Option String :=
      match state with
      | .HasMore token => some token
      | _ => none
    match pageResult continuation_token with
    | .error e => { issued := [continuation_token], yielded := some (.error e, state) }
    | .ok resp =>
      let next_state : ListState :=
        match resp.next_continuation_token with
        | some next_continuation_token => .HasMore next_continuation_token
        | none => .Done
      { issued := [continuation_token], yielded := some (.ok resp, next_state) }

/-- A consumer pulling the list_objects_v2 stream up to fuel times: the items
yielded and the page requests issued. -/
def listRun (pageResult : Option String → Except (RusotoError ListObjectsV2Error) ListObjectsV2Output) :
    Nat → ListState →
    List (Except (RusotoError ListObjectsV2Error) ListObjectsV2Output) × List (Option String)
  | 0, _ => ([], [])
  | fuel + 1, state =>
    match listPull pageResult state with
    | { issued := _, yielded := none } => ([], [])
    | { issued := issued, yielded := some (item, next_state) } =>
      let rest := listRun pageResult fuel next_state
      (item :: rest.1, issued ++ rest.2)

/-- aws.rs ObjectStoreApi::list, one pull of the returned stream: the page
items are projected to the contained keys and errors are wrapped into
Error::UnableToListData, as the map_ok / map_err pair in the source does. -/
def list (bucket_name : String)
    (pageResult : Option String → Except (RusotoError ListObjectsV2Error) ListObjectsV2Output)
    (state : ListState) : Pull (Except Error (List CloudPath)) :=
  match listPull pageResult state with
  | { issued := issued, yielded := none } => { issued := issued, yielded := none }
  | { issued := issued, yielded := some (.error e, next_state) } =>
    { issued := issued, yielded := some (.error (.UnableToListData e bucket_name), next_state) }
  | { issued := issued, yielded := some (.ok resp, next_state) } =>
    { issued := issued,
      yielded := some (.ok ((resp.contents.getD []).filterMap (fun object => object.key.map CloudPath.raw)),
                       next_state) }

/-- The per-object conversion inside the aws.rs list_with_delimiter fold:
location from the key (the source panics when the key is absent; no theorem
below exercises that input), last_modified by parsing the rfc3339 string or
using the current time when absent, size from the reported size.  A parse
failure propagates as Error::UnableToParseLastModified. -/
def objectMetaOf (parseTime : String → Option Int) (now : Int) (bucket_name : String)
    (object : Object) : Except Error ObjectMeta :=
  let location := CloudPath.raw (object.key.getD "")
  match object.last_modified with
  | some lm =>
    match parseTime lm with
    | some t => .ok { location := location, last_modified := t, size := (object.size.getD 0).toNat }
    | none => .error (.UnableToParseLastModified bucket_name)
  | none => .ok { location := location, last_modified := now, size := (object.size.getD 0).toNat }

/-- One accumulation step of the aws.rs list_with_delimiter try_fold: append
this page's converted objects and common prefixes to the accumulator.  The
next_token field of the accumulator is never touched. -/
def foldPage (parseTime : String → Option Int) (now : Int) (bucket_name : String)
    (acc : ListResult) (page : ListObjectsV2Output) : Except Error ListResult :=
  match (page.contents.getD []).mapM (objectMetaOf parseTime now bucket_name) with
  | .error e => .error e
  | .ok objects =>
    .ok { acc with
          objects := acc.objects ++ objects
          common_prefixes := acc.common_prefixes ++
            ((page.common_prefixes.getD []).map (fun p => CloudPath.raw (p.pfx.getD ""))) }

/-- try_fold over the list_objects_v2 stream as consumed by aws.rs
list_with_delimiter: pull a page, stop at the first error (wrapping stream
errors into Error::UnableToListData exactly as the map_err preceding the fold
does), otherwise accumulate and continue from the next state.  Returns the
fold result and the page requests issued. -/
def tryFoldPages (pageResult : Option String → Except (RusotoError ListObjectsV2Error) ListObjectsV2Output)
    (parseTime : String → Option Int) (now : Int) (bucket_name : String) :
    Nat → ListState → ListResult → Except Error ListResult × List (Option String)
  | 0, _, acc => (.ok acc, [])
  | fuel + 1, state, acc =>
    match listPull pageResult state with
    | { issued := _, yielded := none } => (.ok acc, [])
    | { issued := issued, yielded := some (item, next_state) } =>
      match item with
      | .error e => (.error (.UnableToListData e bucket_name), issued)
      | .ok page =>
        match foldPage parseTime now bucket_name acc page with
        | .error e => (.error e, issued)
        | .ok acc2 =>
          let rest := tryFoldPages pageResult parseTime now bucket_name fuel next_state acc2
          (rest.1, issued ++ rest.2)

/-- aws.rs ObjectStoreApi::list_with_delimiter: fold the whole
list_objects_v2 stream into one ListResult, starting from the accumulator
with next_token = None, common_prefixes and objects empty.  fuel bounds the
number of pages the model can pull; every theorem below supplies enough. -/
def list_with_delimiter
    (pageResult : Option String → Except (RusotoError ListObjectsV2Error) ListObjectsV2Output)
    (parseTime : String → Option Int) (now : Int) (bucket_name : String) (fuel : Nat) :
    Except Error ListResult × List (Option String) :=
  tryFoldPages pageResult parseTime now bucket_name fuel .Start
    { next_token := none, common_prefixes := [], objects := [] }

/-- aws.rs ObjectStoreApi::get: the single (unretried) get_object outcome is
classified — the NoSuchKey service error becomes Error::NotFound, every other
error becomes Error::UnableToGetData — and a present body is returned as the
stream of its chunks with io errors wrapped into
Error::UnableToGetPieceOfData; an absent body is Error::NoData. -/
def get (bucket_name : String) (key : String)
    (getResult : Except (RusotoError GetObjectError) GetObjectOutput) :
    Except Error (List (Except Error Bytes)) :=
  match getResult with
  | .error e =>
    match e with
    | .Service (.NoSuchKey m) => .error (.NotFound key (.Service (.NoSuchKey m)))
    | _ => .error (.UnableToGetData e bucket_name key)
  | .ok out =>
    match out.body with
    | none => .error (.NoData bucket_name key)
    | some s =>
      .ok (s.map (fun item =>
        match item with
        | .ok b => .ok b
        | .error _ => .error (.UnableToGetPieceOfData bucket_name key)))

/-- aws.rs ObjectStoreApi::get issues its request exactly once, without the
s3_request wrapper: only the outcome of attempt 0 is consulted. -/
def getOp (bucket_name : String) (key : String)
    (attempts : Nat → Except (RusotoError GetObjectError) GetObjectOutput) :
    Except Error (List (Except Error Bytes)) :=
  get bucket_name key (attempts 0)

/-- aws.rs ObjectStoreApi::put: the put_object request is wrapped in
s3_request; a failure is wrapped into Error::UnableToPutData.  The output of
a successful put is discarded by the source, so it is modelled as Unit. -/
def put (bucket_name : String) (key : String)
    (attempts : Nat → Except (RusotoError PutObjectError) Unit) : Except Error Unit :=
  match (s3Request attempts).result with
  | .ok _ => .ok ()
  | .error e => .error (.UnableToPutData e bucket_name key)

/-- aws.rs ObjectStoreApi::delete: the delete_object request is wrapped in
s3_request; a failure is wrapped into Error::UnableToDeleteData. -/
def delete (bucket_name : String) (key : String)
    (attempts : Nat → Except (RusotoError DeleteObjectError) Unit) : Except Error Unit :=
  match (s3Request attempts).result with
  | .ok _ => .ok ()
  | .error e => .error (.UnableToDeleteData e bucket_name key)

end aws

namespace cloud_storage

/-- cloud_storage::Error, the variants the adapter and its tests
distinguish: Other carries a plain message text, Google a structured service
error response (modelled by its status code), Reqwest a transport error. -/
inductive Error where
  | Other (text : String)
  | Google (code : Nat)
  | Reqwest (msg : String)
deriving DecidableEq

/-- cloud_storage Object, the fields the adapter reads. -/
structure Object where
  name : String
  updated : Int
  size : Int
deriving DecidableEq

/-- One page of a cloud_storage object listing: items, grouped prefixes and
the page token signalling more data. -/
structure ObjectList where
  items : List Object
  prefixes : List String
  next_page_token : Option String
deriving DecidableEq

end cloud_storage

namespace gcp

/-- gcp.rs Error enum (the variants reachable from the modelled
operations). -/
inductive Error where
  | DataDoesNotMatchLength (expected actual : Nat)
  | UnableToPutData (source : cloud_storage.Error) (bucket location : String)
  | UnableToListData (source : cloud_storage.Error) (bucket : String)
  | UnableToStreamListData (source : cloud_storage.Error) (bucket : String)
  | UnableToDeleteData (source : cloud_storage.Error) (bucket location : String)
  | UnableToGetData (source : cloud_storage.Error) (bucket location : String)
  | NotFound (location : String) (source : cloud_storage.Error)
deriving DecidableEq

/-- gcp.rs ObjectStoreApi::get: the whole object body is downloaded in one
client.object().download call; an Other error whose text starts with the
documented "No such object" marker is classified as Error::NotFound, every
other failure as Error::UnableToGetData; the returned stream is a
stream::once carrying the downloaded bytes as its single chunk. -/
def get (bucket_name : String) (location : String)
    (downloadResult : Except cloud_storage.Error Bytes) : Except Error (List Bytes) :=
  match downloadResult with
  | .error e =>
    .error (match e with
      | .Other text =>
        if text.startsWith "No such object" then .NotFound location e
        else .UnableToGetData e bucket_name location
      | _ => .UnableToGetData e bucket_name location)
  | .ok bytes => .ok [bytes]

/-- gcp.rs get issues its download request exactly once (no retry wrapper
exists in gcp.rs): only the outcome of attempt 0 is consulted. -/
def getOp (bucket_name : String) (location : String)
    (attempts : Nat → Except cloud_storage.Error Bytes) : Except Error (List Bytes) :=
  get bucket_name location (attempts 0)

/-- gcp.rs ObjectStoreApi::put: one client.object().create call; a failure is
wrapped into Error::UnableToPutData. -/
def put (bucket_name : String) (location : String)
    (createResult : Except cloud_storage.Error Unit) : Except Error Unit :=
  match createResult with
  | .ok _ => .ok ()
  | .error e => .error (.UnableToPutData e bucket_name location)

/-- gcp.rs put issues its request exactly once: only attempt 0 is
consulted. -/
def putOp (bucket_name : String) (location : String)
    (attempts : Nat → Except cloud_storage.Error Unit) : Except Error Unit :=
  put bucket_name location (attempts 0)

/-- gcp.rs ObjectStoreApi::delete: one client.object().delete call; a failure
is wrapped into Error::UnableToDeleteData.  The adapter does not special-case
a missing key — the backend outcome is propagated unchanged. -/
def delete (bucket_name : String) (location : String)
    (deleteResult : Except cloud_storage.Error Unit) : Except Error Unit :=
  match deleteResult with
  | .ok _ => .ok ()
  | .error e => .error (.UnableToDeleteData e bucket_name location)

/-- gcp.rs delete issues its request exactly once: only attempt 0 is
consulted. -/
def deleteOp (bucket_name : String) (location : String)
    (attempts : Nat → Except cloud_storage.Error Unit) : Except Error Unit :=
  delete bucket_name location (attempts 0)

/-- gcp.rs ObjectStoreApi::list_with_delimiter: initiating the listing can
fail (Error::UnableToListData); otherwise exactly one pull of the page
stream is taken (object_lists.next().await).  An empty stream gives the empty
ListResult; a failed first page gives Error::UnableToStreamListData; a
successful first page is projected into a ListResult whose next_token is the
page's next_page_token. -/
def list_with_delimiter (bucket_name : String)
    (listResult : Except cloud_storage.Error (List (Except cloud_storage.Error cloud_storage.ObjectList))) :
    Except Error ListResult :=
  match listResult with
  | .error e => .error (.UnableToListData e bucket_name)
  | .ok object_lists =>
    match object_lists with
    | [] => .ok { next_token := none, common_prefixes := [], objects := [] }
    | list_response :: _ =>
      match list_response with
      | .error e => .error (.UnableToStreamListData e bucket_name)
      | .ok resp =>
        .ok { next_token := resp.next_page_token
              common_prefixes := resp.prefixes.map CloudPath.raw
              objects := resp.items.map (fun object =>
                { location := CloudPath.raw object.name
                  last_modified := object.updated
                  size := object.size.toNat }) }

end gcp

namespace azure

/-- azure.rs Error enum; the boxed dynamic source error is modelled by its
message. -/
inductive Error where
  | Delete (source : String) (location : String)
  | Get (source : String) (location : String)
  | Put (source : String) (location : String)
  | List (source : String)
deriving DecidableEq

/-- Azure blob properties the adapter reads. -/
structure BlobProperties where
  last_modified : Int
  content_length : Int
deriving DecidableEq

/-- An Azure blob listing entry. -/
structure Blob where
  name : String
  properties : BlobProperties
deriving DecidableEq

/-- The blobs section of a list_blobs response: grouped prefixes (the source
field is named blob_prefix, a name Lean reserves pieces of, so the model
names it blobPfx) and the blob entries. -/
structure Blobs where
  blobPfx : Option (List String)
  blobs : List Blob
deriving DecidableEq

/-- An azure list_blobs response: the continuation marker and the blobs. -/
structure ListBlobsResponse where
  next_marker : Option String
  blobs : Blobs
deriving DecidableEq

/-- azure.rs ObjectStoreApi::list, one step of the stream::unfold.  pageResult
marker is the outcome of the list_blobs request carrying that next_marker.
Errors are wrapped into Error::List and yielded with the state unchanged; a
response transitions to HasMore of its next_marker when present, else Done,
and yields the blob names. -/
def listPull (pageResult : Option String → Except String ListBlobsResponse)
    (state : ListState) : Pull (Except Error (List CloudPath)) :=
  match state with
  | .Done => { issued := [], yielded := none }
  | _ =>
    let marker : Option String :=
      match state with
      | .HasMore marker => some marker
      | _ => none
    match pageResult marker with
    | .error err => { issued := [marker], yielded := some (.error (.List err), state) }
    | .ok resp =>
      let next_state : ListState :=
        match resp.next_marker with
        | some m => .HasMore m
        | none => .Done
      { issued := [marker],
        yielded := some (.ok (resp.blobs.blobs.map (fun blob => CloudPath.raw blob.name)),
                         next_state) }

/-- azure.rs ObjectStoreApi::list_with_delimiter: a single list_blobs request
(no pagination loop); next_token is the response's next_marker, prefixes and
blob entries are projected into the ListResult. -/
def list_with_delimiter (execResult : Except String ListBlobsResponse) :
    Except Error ListResult :=
  match execResult with
  | .error e => .error (.List e)
  | .ok resp =>
    .ok { next_token := resp.next_marker.map (fun m => m)
          common_prefixes := ((resp.blobs.blobPfx.map (fun ps => ps.map CloudPath.raw)).getD [])
          objects := resp.blobs.blobs.map (fun blob =>
            { location := CloudPath.raw blob.name
              last_modified := blob.properties.last_modified
              size := blob.properties.content_length.toNat }) }

/-- azure.rs ObjectStoreApi::put: one put_block_blob request; a failure is
wrapped into Error::Put. -/
def put (location : String) (execResult : Except String Unit) : Except Error Unit :=
  match execResult with
  | .ok _ => .ok ()
  | .error e => .error (.Put e location)

/-- azure.rs put issues its request exactly once: only attempt 0 is
consulted. -/
def putOp (location : String) (attempts : Nat → Except String Unit) : Except Error Unit :=
  put location (attempts 0)

end azure

/-- C2, counterexample.  The claim asserts that a factory failing with a
transient error exactly k times and then succeeding makes the executor issue
exactly min(k, 4) attempts.  At k = 3 the executor issues 4 requests (three
transient failures, one success), not min(3, 4) = 3. -/
theorem c2_counterexample :
    (aws.s3Request (fun i =>
      if i < 3 then (.error (.Unknown ⟨500⟩) : Except (rusoto.RusotoError Unit) Nat)
      else .ok 0)).requests = 4 ∧ min 3 4 = 3 ∧ (4 : Nat) ≠ 3 :=
  ⟨rfl, rfl, by decide⟩

/-- C2, amended.  For a factory failing with transient (5xx) errors on its
first k attempts and succeeding on attempt k: the executor succeeds iff
k ≤ 3, returning the success value, and otherwise returns the last error
encountered (that of the fourth request); it issues exactly min(k + 1, 4)
requests; and it sleeps a cumulative Σ 50·2^i ms for i in 1..min(k, 3),
that is 50·(2^(min(k, 3) + 1) − 2) ms, between consecutive attempts. -/
theorem c2_amended {E R : Type} (k : Nat) (r : R)
    (future_factory : Nat → Except (rusoto.RusotoError E) R)
    (errOf : Nat → rusoto.RusotoError E)
    (hfail : ∀ i, i < k → future_factory i = .error (errOf i) ∧ aws.shouldRetry (errOf i) = true)
    (hok : future_factory k = .ok r) :
    ((aws.s3Request future_factory).result =
        if k ≤ 3 then Except.ok r else Except.error (errOf 3)) ∧
    (aws.s3Request future_factory).requests = min (k + 1) 4 ∧
    (aws.s3Request future_factory).sleepMs = 50 * (2 ^ (min k 3 + 1) - 2) := by
  rcases Nat.lt_or_ge k 4 with hk | hk
  · interval_cases k
    · refine ⟨?_, ?_, ?_⟩ <;>
        simp [aws.s3Request, aws.s3RequestFrom, aws.MAX_NUM_RETRIES, hok]
    · obtain ⟨h0, hr0⟩ := hfail 0 (by omega)
      refine ⟨?_, ?_, ?_⟩ <;>
        simp [aws.s3Request, aws.s3RequestFrom, aws.MAX_NUM_RETRIES, h0, hr0, hok]
    · obtain ⟨h0, hr0⟩ := hfail 0 (by omega)
      obtain ⟨h1, hr1⟩ := hfail 1 (by omega)
      refine ⟨?_, ?_, ?_⟩ <;>
        simp [aws.s3Request, aws.s3RequestFrom, aws.MAX_NUM_RETRIES, h0, hr0, h1, hr1, hok]
    · obtain ⟨h0, hr0⟩ := hfail 0 (by omega)
      obtain ⟨h1, hr1⟩ := hfail 1 (by omega)
      obtain ⟨h2, hr2⟩ := hfail 2 (by omega)
      refine ⟨?_, ?_, ?_⟩ <;>
        simp [aws.s3Request, aws.s3RequestFrom, aws.MAX_NUM_RETRIES,
          h0, hr0, h1, hr1, h2, hr2, hok]
  · obtain ⟨h0, hr0⟩ := hfail 0 (by omega)
    obtain ⟨h1, hr1⟩ := hfail 1 (by omega)
    obtain ⟨h2, hr2⟩ := hfail 2 (by omega)
    obtain ⟨h3, hr3⟩ := hfail 3 (by omega)
    have hmin3 : min k 3 = 3 := by omega
    have hmin4 : min (k + 1) 4 = 4 := by omega
    have hif : ¬ k ≤ 3 := by omega
    refine ⟨?_, ?_, ?_⟩ <;>
      simp [aws.s3Request, aws.s3RequestFrom, aws.MAX_NUM_RETRIES,
        h0, hr0, h1, hr1, h2, hr2, h3, hr3, hmin3, hmin4, hif]

/-- C2, witness: the amended theorem at k = 2 with a 500-status transient
error and success value 7. -/
theorem c2_witness :
    ((aws.s3Request (fun i =>
        if i < 2 then (.error (.Unknown ⟨500⟩) : Except (rusoto.RusotoError Unit) Nat)
        else .ok 7)).result = if 2 ≤ 3 then Except.ok 7 else Except.error (.Unknown ⟨500⟩)) ∧
    (aws.s3Request (fun i =>
        if i < 2 then (.error (.Unknown ⟨500⟩) : Except (rusoto.RusotoError Unit) Nat)
        else .ok 7)).requests = min (2 + 1) 4 ∧
    (aws.s3Request (fun i =>
        if i < 2 then (.error (.Unknown ⟨500⟩) : Except (rusoto.RusotoError Unit) Nat)
        else .ok 7)).sleepMs = 50 * (2 ^ (min 2 3 + 1) - 2) :=
  c2_amended 2 7 _ (fun _ => .Unknown ⟨500⟩)
    (fun _ hi => ⟨by rw [if_pos hi], rfl⟩) rfl

/-- C8: a request whose first attempt fails with a non-transient error is
returned after exactly one request, with no sleep and no retry. -/
theorem c8_non_transient_single_attempt {E R : Type}
    (future_factory : Nat → Except (rusoto.RusotoError E) R) (e : rusoto.RusotoError E)
    (h0 : future_factory 0 = .error e) (hnr : aws.shouldRetry e = false) :
    aws.s3Request future_factory = { result := .error e, requests := 1, sleepMs := 0 } := by
  simp [aws.s3Request, aws.s3RequestFrom, aws.MAX_NUM_RETRIES, h0, hnr]

/-- C8, witness: a 404 client error on the first attempt. -/
theorem c8_witness :
    aws.s3Request (fun _ => (.error (.Unknown ⟨404⟩) : Except (rusoto.RusotoError Unit) Unit)) =
      { result := .error (.Unknown ⟨404⟩), requests := 1, sleepMs := 0 } :=
  c8_non_transient_single_attempt _ _ rfl rfl

/-- C3, counterexample.  The claim asserts that after a failed page request
the sequence yields one error item and is exhausted, with no further page
request issued.  Against a backend whose page request always fails, pulling
the S3 listing stream twice yields two error items and issues two page
requests: the unfold keeps its state unchanged on failure, so the next pull
re-issues the request. -/
theorem c3_counterexample :
    (aws.listRun (fun _ => (.error (.Unknown ⟨503⟩) :
        Except (rusoto.RusotoError rusoto_s3.ListObjectsV2Error) rusoto_s3.ListObjectsV2Output))
      2 .Start).1.length = 2 ∧
    (aws.listRun (fun _ => (.error (.Unknown ⟨503⟩) :
        Except (rusoto.RusotoError rusoto_s3.ListObjectsV2Error) rusoto_s3.ListObjectsV2Output))
      2 .Start).2.length = 2 :=
  ⟨rfl, rfl⟩

/-- C3, amended.  On a failed page request the listing stream yields the
error item and leaves the engine state unchanged (in both the S3 and the
Azure adapter), so a subsequent pull issues the same page request again; in
particular n pulls against an always-failing backend yield n error items and
issue n page requests.  The sequence is not exhausted by an error. -/
theorem c3_amended :
    (∀ (pageResult : Option String →
          Except (rusoto.RusotoError rusoto_s3.ListObjectsV2Error) rusoto_s3.ListObjectsV2Output)
        (e : rusoto.RusotoError rusoto_s3.ListObjectsV2Error),
        pageResult none = .error e →
        aws.listPull pageResult .Start =
          { issued := [none], yielded := some (.error e, .Start) }) ∧
    (∀ (pageResult : Option String →
          Except (rusoto.RusotoError rusoto_s3.ListObjectsV2Error) rusoto_s3.ListObjectsV2Output)
        (t : String) (e : rusoto.RusotoError rusoto_s3.ListObjectsV2Error),
        pageResult (some t) = .error e →
        aws.listPull pageResult (.HasMore t) =
          { issued := [some t], yielded := some (.error e, .HasMore t) }) ∧
    (∀ (e : rusoto.RusotoError rusoto_s3.ListObjectsV2Error) (n : Nat),
        (aws.listRun (fun _ => .error e) n .Start).1.length = n ∧
        (aws.listRun (fun _ => .error e) n .Start).2.length = n) ∧
    (∀ (pageResult : Option String → Except String azure.ListBlobsResponse) (e : String),
        pageResult none = .error e →
        azure.listPull pageResult .Start =
          { issued := [none], yielded := some (.error (.List e), .Start) }) ∧
    (∀ (pageResult : Option String → Except String azure.ListBlobsResponse)
        (t : String) (e : String),
        pageResult (some t) = .error e →
        azure.listPull pageResult (.HasMore t) =
          { issued := [some t], yielded := some (.error (.List e), .HasMore t) }) := by
  refine ⟨?_, ?_, ?_, ?_, ?_⟩
  · intro pageResult e h
    simp [aws.listPull, h]
  · intro pageResult t e h
    simp [aws.listPull, h]
  · intro e n
    induction n with
    | zero => exact ⟨rfl, rfl⟩
    | succ m ih =>
      have h : aws.listPull (fun _ => (.error e :
          Except (rusoto.RusotoError rusoto_s3.ListObjectsV2Error) rusoto_s3.ListObjectsV2Output))
          .Start = { issued := [none], yielded := some (.error e, .Start) } := rfl
      refine ⟨?_, ?_⟩ <;> simp [aws.listRun, h, ih.1, ih.2]
  · intro pageResult e h
    simp [azure.listPull, h]
  · intro pageResult t e h
    simp [azure.listPull, h]

/-- C3, witness: the first conjunct of the amended theorem at an
always-failing backend with a 500-status error. -/
theorem c3_witness :
    aws.listPull (fun _ => (.error (.Unknown ⟨500⟩) :
        Except (rusoto.RusotoError rusoto_s3.ListObjectsV2Error) rusoto_s3.ListObjectsV2Output))
      .Start = { issued := [none], yielded := some (.error (.Unknown ⟨500⟩), .Start) } :=
  c3_amended.1 _ _ rfl

/-- C4, counterexample.  The claim makes the Done transition depend on the
continuation token being non-empty.  A response carrying the empty-string
continuation token (a token that is present but not non-empty) transitions
the S3 engine to HasMore of the empty string, not to Done as the claim
requires. -/
theorem c4_counterexample :
    (aws.listPull (fun _ => .ok { contents := none
                                  common_prefixes := none
                                  next_continuation_token := some ""
                                  is_truncated := some false }) .Start).yielded =
      some (.ok { contents := none
                  common_prefixes := none
                  next_continuation_token := some ""
                  is_truncated := some false }, .HasMore "") ∧
    "".length = 0 ∧
    (ListState.HasMore "" ≠ ListState.Done) :=
  ⟨rfl, rfl, by decide⟩

/-- C4, amended.  The listing engine state machine of the S3 and Azure
adapters satisfies: Start issues one request with no continuation token and
HasMore(t) issues one request with token t; a response carrying a
continuation token — present, possibly empty — transitions to HasMore of that
token, and a response without one transitions to Done; in state Done no
request is issued and nothing is produced. -/
theorem c4_amended :
    (∀ (pageResult : Option String →
          Except (rusoto.RusotoError rusoto_s3.ListObjectsV2Error) rusoto_s3.ListObjectsV2Output),
        (aws.listPull pageResult .Start).issued = [none]) ∧
    (∀ (pageResult : Option String →
          Except (rusoto.RusotoError rusoto_s3.ListObjectsV2Error) rusoto_s3.ListObjectsV2Output)
        (t : String), (aws.listPull pageResult (.HasMore t)).issued = [some t]) ∧
    (∀ (pageResult : Option String →
          Except (rusoto.RusotoError rusoto_s3.ListObjectsV2Error) rusoto_s3.ListObjectsV2Output)
        (resp : rusoto_s3.ListObjectsV2Output) (t : String),
        pageResult none = .ok resp → resp.next_continuation_token = some t →
        (aws.listPull pageResult .Start).yielded = some (.ok resp, .HasMore t)) ∧
    (∀ (pageResult : Option String →
          Except (rusoto.RusotoError rusoto_s3.ListObjectsV2Error) rusoto_s3.ListObjectsV2Output)
        (resp : rusoto_s3.ListObjectsV2Output),
        pageResult none = .ok resp → resp.next_continuation_token = none →
        (aws.listPull pageResult .Start).yielded = some (.ok resp, .Done)) ∧
    (∀ (pageResult : Option String →
          Except (rusoto.RusotoError rusoto_s3.ListObjectsV2Error) rusoto_s3.ListObjectsV2Output)
        (resp : rusoto_s3.ListObjectsV2Output) (u t : String),
        pageResult (some u) = .ok resp → resp.next_continuation_token = some t →
        (aws.listPull pageResult (.HasMore u)).yielded = some (.ok resp, .HasMore t)) ∧
    (∀ (pageResult : Option String →
          Except (rusoto.RusotoError rusoto_s3.ListObjectsV2Error) rusoto_s3.ListObjectsV2Output)
        (resp : rusoto_s3.ListObjectsV2Output) (u : String),
        pageResult (some u) = .ok resp → resp.next_continuation_token = none →
        (aws.listPull pageResult (.HasMore u)).yielded = some (.ok resp, .Done)) ∧
    (∀ (pageResult : Option String →
          Except (rusoto.RusotoError rusoto_s3.ListObjectsV2Error) rusoto_s3.ListObjectsV2Output),
        aws.listPull pageResult .Done = { issued := [], yielded := none }) ∧
    (∀ (pageResult : Option String → Except String azure.ListBlobsResponse),
        (azure.listPull pageResult .Start).issued = [none]) ∧
    (∀ (pageResult : Option String → Except String azure.ListBlobsResponse) (t : String),
        (azure.listPull pageResult (.HasMore t)).issued = [some t]) ∧
    (∀ (pageResult : Option String → Except String azure.ListBlobsResponse)
        (resp : azure.ListBlobsResponse) (t : String),
        pageResult none = .ok resp → resp.next_marker = some t →
        (azure.listPull pageResult .Start).yielded =
          some (.ok (resp.blobs.blobs.map (fun blob => CloudPath.raw blob.name)), .HasMore t)) ∧
    (∀ (pageResult : Option String → Except String azure.ListBlobsResponse)
        (resp : azure.ListBlobsResponse),
        pageResult none = .ok resp → resp.next_marker = none →
        (azure.listPull pageResult .Start).yielded =
          some (.ok (resp.blobs.blobs.map (fun blob => CloudPath.raw blob.name)), .Done)) ∧
    (∀ (pageResult : Option String → Except String azure.ListBlobsResponse),
        azure.listPull pageResult .Done = { issued := [], yielded := none }) := by
  refine ⟨?_, ?_, ?_, ?_, ?_, ?_, ?_, ?_, ?_, ?_, ?_, ?_⟩
  · intro pageResult
    rcases h : pageResult none with e | resp <;> simp [aws.listPull, h]
  · intro pageResult t
    rcases h : pageResult (some t) with e | resp <;> simp [aws.listPull, h]
  · intro pageResult resp t h ht
    simp [aws.listPull, h, ht]
  · intro pageResult resp h ht
    simp [aws.listPull, h, ht]
  · intro pageResult resp u t h ht
    simp [aws.listPull, h, ht]
  · intro pageResult resp u h ht
    simp [aws.listPull, h, ht]
  · intro pageResult
    rfl
  · intro pageResult
    rcases h : pageResult none with e | resp <;> simp [azure.listPull, h]
  · intro pageResult t
    rcases h : pageResult (some t) with e | resp <;> simp [azure.listPull, h]
  · intro pageResult resp t h ht
    simp [azure.listPull, h, ht]
  · intro pageResult resp h ht
    simp [azure.listPull, h, ht]
  · intro pageResult
    rfl

/-- C4, witness: the Start-with-token transition of the amended theorem at a
concrete backend page carrying continuation token t. -/
theorem c4_witness :
    (aws.listPull (fun _ => .ok { contents := none
                                  common_prefixes := none
                                  next_continuation_token := some "t"
                                  is_truncated := some true }) .Start).yielded =
      some (.ok { contents := none
                  common_prefixes := none
                  next_continuation_token := some "t"
                  is_truncated := some true }, .HasMore "t") :=
  c4_amended.2.2.1 _ _ _ rfl rfl

/-- The accumulation step of the S3 list_with_delimiter fold never changes
the next_token field of the accumulator. -/
theorem foldPage_next_token (parseTime : String → Option Int) (now : Int) (bucket_name : String)
    (acc : ListResult) (page : rusoto_s3.ListObjectsV2Output) (acc2 : ListResult)
    (h : aws.foldPage parseTime now bucket_name acc page = .ok acc2) :
    acc2.next_token = acc.next_token := by
  unfold aws.foldPage at h
  split at h
  · simp at h
  · simp only [Except.ok.injEq] at h
    subst h
    rfl

/-- The S3 list_with_delimiter fold returns an accumulator with the same
next_token it started from, whatever pages the backend produces. -/
theorem tryFoldPages_next_token
    (pageResult : Option String →
      Except (rusoto.RusotoError rusoto_s3.ListObjectsV2Error) rusoto_s3.ListObjectsV2Output)
    (parseTime : String → Option Int) (now : Int) (bucket_name : String) :
    ∀ (fuel : Nat) (state : ListState) (acc : ListResult) (r : ListResult),
      (aws.tryFoldPages pageResult parseTime now bucket_name fuel state acc).1 = .ok r →
      r.next_token = acc.next_token := by
  intro fuel
  induction fuel with
  | zero =>
    intro state acc r h
    simp only [aws.tryFoldPages, Except.ok.injEq] at h
    subst h
    rfl
  | succ m ih =>
    intro state acc r h
    simp only [aws.tryFoldPages] at h
    split at h
    · simp only [Except.ok.injEq] at h
      subst h
      rfl
    · split at h
      · simp at h
      · split at h
        · simp at h
        · rename_i acc2 heq
          exact (ih _ acc2 r h).trans
            (foldPage_next_token parseTime now bucket_name acc _ acc2 heq)

/-- C9: the S3 list_with_delimiter always returns a ListResult whose
next_token is None, for every backend page sequence — the fold starts from
next_token = None and no step ever writes that field, even when pages carry
next_continuation_token. -/
theorem c9_s3_next_token_always_none
    (pageResult : Option String →
      Except (rusoto.RusotoError rusoto_s3.ListObjectsV2Error) rusoto_s3.ListObjectsV2Output)
    (parseTime : String → Option Int) (now : Int) (bucket_name : String) (fuel : Nat)
    (r : ListResult)
    (h : (aws.list_with_delimiter pageResult parseTime now bucket_name fuel).1 = .ok r) :
    r.next_token = none :=
  tryFoldPages_next_token pageResult parseTime now bucket_name fuel .Start
    { next_token := none, common_prefixes := [], objects := [] } r h

/-- C9, witness: a single-page backend whose page carries no continuation
token. -/
theorem c9_witness :
    (aws.list_with_delimiter (fun _ => .ok { contents := some []
                                             common_prefixes := none
                                             next_continuation_token := none
                                             is_truncated := some false })
      (fun _ => none) 0 "b" 3).1 =
      .ok { next_token := none, common_prefixes := [], objects := [] } ∧
    ({ next_token := none, common_prefixes := [], objects := [] } : ListResult).next_token =
      none :=
  ⟨rfl,
    c9_s3_next_token_always_none
      (fun _ => .ok { contents := some []
                      common_prefixes := none
                      next_continuation_token := none
                      is_truncated := some false })
      (fun _ => none) 0 "b" 3
      { next_token := none, common_prefixes := [], objects := [] } rfl⟩

/-- Pulled from state HasMore(t), the S3 list_with_delimiter fold always
issues the page request carrying token t as its next request. -/
theorem tryFoldPages_hasMore_issued
    (pageResult : Option String →
      Except (rusoto.RusotoError rusoto_s3.ListObjectsV2Error) rusoto_s3.ListObjectsV2Output)
    (parseTime : String → Option Int) (now : Int) (bucket_name : String)
    (fuel : Nat) (t : String) (acc : ListResult) :
    ∃ rest2, (aws.tryFoldPages pageResult parseTime now bucket_name
      (fuel + 1) (.HasMore t) acc).2 = some t :: rest2 := by
  rcases hp : pageResult (some t) with e | resp
  · exact ⟨[], by simp [aws.tryFoldPages, aws.listPull, hp]⟩
  · rcases hf : aws.foldPage parseTime now bucket_name acc resp with e2 | acc2
    · exact ⟨[], by simp [aws.tryFoldPages, aws.listPull, hp, hf]⟩
    · rcases hn : resp.next_continuation_token with _ | u
      · exact ⟨(aws.tryFoldPages pageResult parseTime now bucket_name fuel .Done acc2).2,
          by simp [aws.tryFoldPages, aws.listPull, hp, hf, hn]⟩
      · exact ⟨(aws.tryFoldPages pageResult parseTime now bucket_name fuel (.HasMore u) acc2).2,
          by simp [aws.tryFoldPages, aws.listPull, hp, hf, hn]⟩

/-- One Start step of the S3 list_with_delimiter fold, when the first page
succeeds, carries a continuation token and folds cleanly: the call recurses
from HasMore of that token and records the tokenless first request. -/
theorem tryFoldPages_start_step
    (pageResult : Option String →
      Except (rusoto.RusotoError rusoto_s3.ListObjectsV2Error) rusoto_s3.ListObjectsV2Output)
    (parseTime : String → Option Int) (now : Int) (bucket_name : String) (fuel : Nat)
    (p0 : rusoto_s3.ListObjectsV2Output) (t : String) (acc acc1 : ListResult)
    (h0 : pageResult none = .ok p0) (htok : p0.next_continuation_token = some t)
    (hfold : aws.foldPage parseTime now bucket_name acc p0 = .ok acc1) :
    aws.tryFoldPages pageResult parseTime now bucket_name (fuel + 1) .Start acc =
      ((aws.tryFoldPages pageResult parseTime now bucket_name fuel (.HasMore t) acc1).1,
       none :: (aws.tryFoldPages pageResult parseTime now bucket_name fuel (.HasMore t) acc1).2) := by
  simp [aws.tryFoldPages, aws.listPull, h0, htok, hfold]

/-- C1, counterexample.  Against a backend whose first page carries
continuation token t1 and whose second page carries none, one S3
list_with_delimiter call issues two page requests (not one) and returns
next_token = None (not the token of the fetched page). -/
theorem c1_counterexample :
    aws.list_with_delimiter
      (fun tok => match tok with
        | none => .ok { contents := some []
                        common_prefixes := none
                        next_continuation_token := some "t1"
                        is_truncated := some true }
        | some _ => .ok { contents := some []
                          common_prefixes := none
                          next_continuation_token := none
                          is_truncated := some false })
      (fun _ => none) 0 "bucket" 10 =
      (.ok { next_token := none, common_prefixes := [], objects := [] }, [none, some "t1"]) ∧
    ([none, some "t1"] : List (Option String)).length ≠ 1 :=
  ⟨rfl, by decide⟩

/-- C1, amended.  The GCS and Azure adapters fetch a single page per
list_with_delimiter call and return that page's continuation token to the
caller (GCS ignores every page after the first; Azure issues one request).
The S3 adapter instead drains the paginated stream inside the call: whenever
the first page carries a continuation token, a second page request carrying
that token is issued within the same call. -/
theorem c1_amended :
    (∀ (bucket_name : String)
        (x : Except cloud_storage.Error cloud_storage.ObjectList)
        (rest : List (Except cloud_storage.Error cloud_storage.ObjectList)),
        gcp.list_with_delimiter bucket_name (.ok (x :: rest)) =
          gcp.list_with_delimiter bucket_name (.ok [x])) ∧
    (∀ (bucket_name : String) (resp : cloud_storage.ObjectList)
        (rest : List (Except cloud_storage.Error cloud_storage.ObjectList)) (r : ListResult),
        gcp.list_with_delimiter bucket_name (.ok (.ok resp :: rest)) = .ok r →
        r.next_token = resp.next_page_token) ∧
    (∀ (resp : azure.ListBlobsResponse) (r : ListResult),
        azure.list_with_delimiter (.ok resp) = .ok r →
        r.next_token = resp.next_marker) ∧
    (∀ (pageResult : Option String →
          Except (rusoto.RusotoError rusoto_s3.ListObjectsV2Error) rusoto_s3.ListObjectsV2Output)
        (parseTime : String → Option Int) (now : Int) (bucket_name : String) (fuel : Nat)
        (p0 : rusoto_s3.ListObjectsV2Output) (t : String) (acc1 : ListResult),
        pageResult none = .ok p0 →
        p0.next_continuation_token = some t →
        aws.foldPage parseTime now bucket_name
          { next_token := none, common_prefixes := [], objects := [] } p0 = .ok acc1 →
        ∃ rest, (aws.list_with_delimiter pageResult parseTime now bucket_name
          (fuel + 1 + 1)).2 = none :: some t :: rest) := by
  refine ⟨?_, ?_, ?_, ?_⟩
  · intro bucket_name x rest
    rfl
  · intro bucket_name resp rest r h
    simp only [gcp.list_with_delimiter, Except.ok.injEq] at h
    subst h
    rfl
  · intro resp r h
    simp only [azure.list_with_delimiter, Except.ok.injEq] at h
    subst h
    rcases resp.next_marker with _ | m <;> rfl
  · intro pageResult parseTime now bucket_name fuel p0 t acc1 h0 htok hfold
    obtain ⟨rest2, hr⟩ :=
      tryFoldPages_hasMore_issued pageResult parseTime now bucket_name fuel t acc1
    refine ⟨rest2, ?_⟩
    have hstep := tryFoldPages_start_step pageResult parseTime now bucket_name (fuel + 1)
      p0 t { next_token := none, common_prefixes := [], objects := [] } acc1 h0 htok hfold
    simp only [aws.list_with_delimiter, hstep, hr]

/-- C1, witness: the S3 conjunct of the amended theorem at a two-page
backend whose first page carries continuation token t1. -/
theorem c1_witness :
    ∃ rest, (aws.list_with_delimiter
      (fun tok => match tok with
        | none => .ok { contents := some []
                        common_prefixes := none
                        next_continuation_token := some "t1"
                        is_truncated := some true }
        | some _ => .ok { contents := some []
                          common_prefixes := none
                          next_continuation_token := none
                          is_truncated := some false })
      (fun _ => none) 0 "bucket" (0 + 1 + 1)).2 = none :: some "t1" :: rest :=
  c1_amended.2.2.2 _ _ _ _ 0 _ _ _ rfl rfl rfl

/-- C5, counterexample.  The claim asserts every idempotent request of every
adapter (including a get-initiation and the GCS put) is wrapped by the Retry
Executor.  With a transient 503 server error on attempt 0 and success
available on attempt 1, the S3 get and the GCS put both surface the error
after the single attempt: neither is retried. -/
theorem c5_counterexample :
    aws.getOp "bucket" "key"
      (fun i => if i = 0 then .error (.Unknown ⟨503⟩) else .ok { body := some [] }) =
      .error (.UnableToGetData (.Unknown ⟨503⟩) "bucket" "key") ∧
    aws.shouldRetry
      ((.Unknown ⟨503⟩ : rusoto.RusotoError rusoto_s3.GetObjectError)) = true ∧
    gcp.putOp "bucket" "key" (fun i => if i = 0 then .error (.Google 503) else .ok ()) =
      .error (.UnableToPutData (.Google 503) "bucket" "key") :=
  ⟨rfl, rfl, rfl⟩

/-- C5, amended.  Only the S3 put, delete and list-page requests go through
the retry executor — for those, a single transient failure followed by a
success yields success.  The S3 get-initiation and every GCS and Azure
request are issued exactly once: their outcome depends only on attempt 0. -/
theorem c5_amended :
    (∀ (bucket_name key : String)
        (attempts : Nat → Except (rusoto.RusotoError rusoto_s3.PutObjectError) Unit)
        (e : rusoto.RusotoError rusoto_s3.PutObjectError),
        attempts 0 = .error e → aws.shouldRetry e = true → attempts 1 = .ok () →
        aws.put bucket_name key attempts = .ok ()) ∧
    (∀ (bucket_name key : String)
        (attempts : Nat → Except (rusoto.RusotoError rusoto_s3.DeleteObjectError) Unit)
        (e : rusoto.RusotoError rusoto_s3.DeleteObjectError),
        attempts 0 = .error e → aws.shouldRetry e = true → attempts 1 = .ok () →
        aws.delete bucket_name key attempts = .ok ()) ∧
    (∀ (attempts : Nat →
          Except (rusoto.RusotoError rusoto_s3.ListObjectsV2Error) rusoto_s3.ListObjectsV2Output)
        (e : rusoto.RusotoError rusoto_s3.ListObjectsV2Error)
        (p : rusoto_s3.ListObjectsV2Output),
        attempts 0 = .error e → aws.shouldRetry e = true → attempts 1 = .ok p →
        (aws.s3Request attempts).result = .ok p) ∧
    (∀ (bucket_name key : String)
        (a b : Nat → Except (rusoto.RusotoError rusoto_s3.GetObjectError) rusoto_s3.GetObjectOutput),
        a 0 = b 0 → aws.getOp bucket_name key a = aws.getOp bucket_name key b) ∧
    (∀ (bucket_name location : String) (a b : Nat → Except cloud_storage.Error Unit),
        a 0 = b 0 → gcp.putOp bucket_name location a = gcp.putOp bucket_name location b) ∧
    (∀ (bucket_name location : String) (a b : Nat → Except cloud_storage.Error Unit),
        a 0 = b 0 → gcp.deleteOp bucket_name location a = gcp.deleteOp bucket_name location b) ∧
    (∀ (bucket_name location : String) (a b : Nat → Except cloud_storage.Error Bytes),
        a 0 = b 0 → gcp.getOp bucket_name location a = gcp.getOp bucket_name location b) ∧
    (∀ (location : String) (a b : Nat → Except String Unit),
        a 0 = b 0 → azure.putOp location a = azure.putOp location b) := by
  refine ⟨?_, ?_, ?_, ?_, ?_, ?_, ?_, ?_⟩
  · intro bucket_name key attempts e h0 hr h1
    simp [aws.put, aws.s3Request, aws.s3RequestFrom, aws.MAX_NUM_RETRIES, h0, hr, h1]
  · intro bucket_name key attempts e h0 hr h1
    simp [aws.delete, aws.s3Request, aws.s3RequestFrom, aws.MAX_NUM_RETRIES, h0, hr, h1]
  · intro attempts e p h0 hr h1
    simp [aws.s3Request, aws.s3RequestFrom, aws.MAX_NUM_RETRIES, h0, hr, h1]
  · intro bucket_name key a b hab
    simp [aws.getOp, hab]
  · intro bucket_name location a b hab
    simp [gcp.putOp, hab]
  · intro bucket_name location a b hab
    simp [gcp.deleteOp, hab]
  · intro bucket_name location a b hab
    simp [gcp.getOp, hab]
  · intro location a b hab
    simp [azure.putOp, hab]

/-- C5, witness: the S3 put conjunct of the amended theorem, with a 500
transient failure on attempt 0 and success on attempt 1. -/
theorem c5_witness :
    aws.put "bucket" "key"
      (fun i => if i = 0
        then (.error (.Unknown ⟨500⟩) : Except (rusoto.RusotoError rusoto_s3.PutObjectError) Unit)
        else .ok ()) = .ok () :=
  c5_amended.1 "bucket" "key" _ (.Unknown ⟨500⟩) rfl rfl rfl

/-- Modelled from the repository test gcs_test_delete_nonexistent_location
in gcp.rs: deleting a nonexistent key makes the GCS backend answer with a
Google service error (the test asserts cloud_storage::Error::Google), which
the adapter must surface as Error::UnableToDeleteData. -/
def gcsDeleteMissingKeyOutcome : Except cloud_storage.Error Unit :=
  .error (.Google 404)

/-- C6, counterexample.  Deleting a nonexistent key through the GCS adapter
fails with Error::UnableToDeleteData: the adapter propagates the backend
error unchanged, exactly as the repository test asserts, so delete is not
idempotent on every adapter. -/
theorem c6_counterexample :
    gcp.delete "bucket" "nonexistentname" gcsDeleteMissingKeyOutcome =
      .error (.UnableToDeleteData (.Google 404) "bucket" "nonexistentname") := rfl

/-- C6, amended.  Each adapter propagates the backend's delete outcome
unmodified: when the backend reports success — as S3 does for a missing key,
per the repository test s3_test_delete_nonexistent_location — delete
succeeds; when the backend reports an error — as GCS does for a missing key,
per gcs_test_delete_nonexistent_location — delete fails with
Error::UnableToDeleteData.  Delete of a nonexistent key is therefore
idempotent on the S3 adapter but not on the GCS adapter. -/
theorem c6_amended :
    (∀ (bucket_name key : String)
        (attempts : Nat → Except (rusoto.RusotoError rusoto_s3.DeleteObjectError) Unit),
        attempts 0 = .ok () → aws.delete bucket_name key attempts = .ok ()) ∧
    (∀ (bucket_name location : String),
        gcp.delete bucket_name location (.ok ()) = .ok ()) ∧
    (∀ (bucket_name location : String) (e : cloud_storage.Error),
        gcp.delete bucket_name location (.error e) =
          .error (.UnableToDeleteData e bucket_name location)) := by
  refine ⟨?_, ?_, ?_⟩
  · intro bucket_name key attempts h0
    simp [aws.delete, aws.s3Request, aws.s3RequestFrom, aws.MAX_NUM_RETRIES, h0]
  · intro bucket_name location
    rfl
  · intro bucket_name location e
    rfl

/-- C6, witness: the S3 conjunct of the amended theorem at a backend that
reports success for the delete of a missing key. -/
theorem c6_witness :
    aws.delete "bucket" "nonexistentname"
      (fun _ => (.ok () : Except (rusoto.RusotoError rusoto_s3.DeleteObjectError) Unit)) =
      .ok () :=
  c6_amended.1 "bucket" "nonexistentname" _ rfl

/-- C7: get classifies a missing key as the distinguished NotFound error.
The S3 adapter returns NotFound exactly for the NoSuchKey service error; the
GCS adapter returns NotFound exactly for the Other error variant whose text
starts with "No such object"; every other get failure is classified as the
generic UnableToGetData kind. -/
theorem c7_get_notfound_classification :
    (∀ (bucket_name key : String) (e : rusoto.RusotoError rusoto_s3.GetObjectError),
        (∃ loc src, aws.get bucket_name key (.error e) = .error (.NotFound loc src)) ↔
        ∃ m, e = .Service (.NoSuchKey m)) ∧
    (∀ (bucket_name key : String) (e : rusoto.RusotoError rusoto_s3.GetObjectError),
        (¬ ∃ m, e = rusoto.RusotoError.Service (rusoto_s3.GetObjectError.NoSuchKey m)) →
        aws.get bucket_name key (.error e) = .error (.UnableToGetData e bucket_name key)) ∧
    (∀ (bucket_name location : String) (e : cloud_storage.Error),
        (∃ loc src, gcp.get bucket_name location (.error e) = .error (.NotFound loc src)) ↔
        ∃ t, e = .Other t ∧ t.startsWith "No such object" = true) ∧
    (∀ (bucket_name location : String) (e : cloud_storage.Error),
        (¬ ∃ t, e = cloud_storage.Error.Other t ∧ t.startsWith "No such object" = true) →
        gcp.get bucket_name location (.error e) =
          .error (.UnableToGetData e bucket_name location)) := by
  refine ⟨?_, ?_, ?_, ?_⟩
  · intro bucket_name key e
    constructor
    · rintro ⟨loc, src, h⟩
      rcases e with err | m | m | m | m | resp | _
      · rcases err with m | m
        · exact ⟨m, rfl⟩
        · simp [aws.get] at h
      all_goals simp [aws.get] at h
    · rintro ⟨m, rfl⟩
      exact ⟨key, .Service (.NoSuchKey m), rfl⟩
  · intro bucket_name key e hne
    rcases e with err | m | m | m | m | resp | _
    · rcases err with m | m
      · exact absurd ⟨m, rfl⟩ hne
      · rfl
    all_goals rfl
  · intro bucket_name location e
    constructor
    · rintro ⟨loc, src, h⟩
      rcases e with text | code | m
      · by_cases hst : text.startsWith "No such object" = true
        · exact ⟨text, rfl, hst⟩
        · simp [gcp.get, hst] at h
      all_goals simp [gcp.get] at h
    · rintro ⟨t, rfl, hst⟩
      exact ⟨location, .Other t, by simp [gcp.get, hst]⟩
  · intro bucket_name location e hne
    rcases e with text | code | m
    · by_cases hst : text.startsWith "No such object" = true
      · exact absurd ⟨text, rfl, hst⟩ hne
      · simp [gcp.get, hst]
    all_goals rfl

/-- C7, witness: the S3 classification at a NoSuchKey service error, and the
GCS classification at a Google service error. -/
theorem c7_witness :
    (∃ loc src, aws.get "b" "k"
        (.error (.Service (.NoSuchKey "m"))) = .error (.NotFound loc src)) ∧
    gcp.get "b" "k" (.error (.Google 500)) =
      .error (.UnableToGetData (.Google 500) "b" "k") :=
  ⟨(c7_get_notfound_classification.1 "b" "k" (.Service (.NoSuchKey "m"))).mpr ⟨"m", rfl⟩,
   c7_get_notfound_classification.2.2.2 "b" "k" (.Google 500)
     (by rintro ⟨t, ht, _⟩; exact cloud_storage.Error.noConfusion ht)⟩

/-- C10: the GCS get downloads the whole object body before returning (the
model takes the completed download outcome) and yields it as a stream of
exactly one chunk equal to the full content; the stream has no further
element. -/
theorem c10_gcs_get_single_chunk :
    ∀ (bucket_name location : String) (b : Bytes),
      gcp.get bucket_name location (.ok b) = .ok [b] ∧
      (gcp.get bucket_name location (.ok b)).map List.length = .ok 1 ∧
      (gcp.get bucket_name location (.ok b)).map (fun s => s.drop 1) = .ok [] :=
  fun _ _ _ => ⟨rfl, rfl, rfl⟩
